import Mathlib

/-!
Shallow embedding of the nphysics world-object and constraint core
(src/object/world_object.rs and src/detection/constraint.rs).

Modelling conventions:

* An `Arc<RwLock<T>>` handle is a `Handle T`: the address of its storage
  cell (`addr`, the value the uid functions read) together with the
  pointed-to `RwLock` cell.  Two handles refer to the same underlying
  entity exactly when their `addr` coincide; distinct simultaneously
  live entities occupy distinct cells, hence distinct `addr`.
  `Arc::clone` yields a new reference to the same cell, so `Handle.clone`
  is the identity on the model value.
* `std::sync::RwLock` acquisition returns a `LockResult`: an `err`
  (`PoisonError`) when the lock is poisoned, `ok` otherwise.  Calling
  `unwrap` on an `err` result panics.  Blocking on a contended lock is a
  concurrency phenomenon outside the shallow embedding; lock acquisition
  is modelled as returning once granted.
* A Rust panic is modelled as `Option.none`; an operation that can panic
  returns `Option`.
* The entity payloads (`RigidBody`, `Sensor`), the joint payloads
  (`BallInSocket`, `Fixed`) and the point/vector/scalar types inside
  `Contact` are external collaborators, kept as opaque type parameters.
-/

/-- Storage cell of `std::sync::RwLock<A>`: the protected value together
with the poisoned flag set when a thread panicked while holding the
write lock. -/
structure RwLock (A : Type) where
  poisoned : Bool
  value : A
deriving DecidableEq

/-- Result of `RwLock::read` / `RwLock::write`: `ok guard` on success,
`err guard` (a `PoisonError` still carrying the guard) when the lock is
poisoned. -/
inductive LockResult (A : Type) where
  | ok : A → LockResult A
  | err : A → LockResult A
deriving DecidableEq

/-- Rust `Result::unwrap` on a `LockResult`: panics (`none`) on `err`. -/
def LockResult.unwrap : LockResult A → Option A
  | .ok a => some a
  | .err _ => none

/-- Acquire the read lock (`RwLock::read`).  Blocking until the lock is
granted is abstracted away; the result is `err` iff the lock is
poisoned, and the guard exposes the protected value. -/
def RwLock.read (l : RwLock A) : LockResult A :=
  if l.poisoned then .err l.value else .ok l.value

/-- Acquire the write lock (`RwLock::write`).  Same poisoning behavior
as `RwLock.read`. -/
def RwLock.write (l : RwLock A) : LockResult A :=
  if l.poisoned then .err l.value else .ok l.value

/-- An `Arc<RwLock<A>>` handle: the address of the shared storage cell
(`&**h as *const RwLock<A> as usize` reads exactly this) plus the cell
itself. -/
structure Handle (A : Type) where
  addr : Nat
  cell : RwLock A
deriving DecidableEq

/-- Rust `Arc::clone`: a new reference to the same cell (the model value
is unchanged; only the reference count, not modelled, differs). -/
def Handle.clone (h : Handle A) : Handle A := h

/-- The `WorldObject<N>` enum: a tagged union over a rigid-body handle
and a sensor handle.  `RB` and `S` are the (external) `RigidBody<N>`
and `Sensor<N>` entity types. -/
inductive WorldObject (RB S : Type) where
  | RigidBody : Handle RB → WorldObject RB S
  | Sensor : Handle S → WorldObject RB S
deriving DecidableEq

/-- The `WorldObjectBorrowed` enum of read guards: the guard is modelled
as the entity value it dereferences to. -/
inductive WorldObjectBorrowed (RB S : Type) where
  | RigidBody : RB → WorldObjectBorrowed RB S
  | Sensor : S → WorldObjectBorrowed RB S
deriving DecidableEq

/-- The `WorldObjectBorrowedMut` enum of write guards. -/
inductive WorldObjectBorrowedMut (RB S : Type) where
  | RigidBody : RB → WorldObjectBorrowedMut RB S
  | Sensor : S → WorldObjectBorrowedMut RB S
deriving DecidableEq

/-- `WorldObject::rigid_body_uid`: the storage address of the handle's
cell, read as an integer. -/
def WorldObject.rigid_body_uid (rb : Handle RB) : Nat := rb.addr

/-- `WorldObject::sensor_uid`: the storage address of the handle's cell,
read as an integer. -/
def WorldObject.sensor_uid (s : Handle S) : Nat := s.addr

/-- `WorldObject::is_rigid_body`. -/
def WorldObject.is_rigid_body : WorldObject RB S → Bool
  | .RigidBody _ => true
  | _ => false

/-- `WorldObject::is_sensor`. -/
def WorldObject.is_sensor : WorldObject RB S → Bool
  | .Sensor _ => true
  | _ => false

/-- `WorldObject::unwrap_sensor`: the inner handle when the tag is
`Sensor`, a panic (`none`) otherwise. -/
def WorldObject.unwrap_sensor : WorldObject RB S → Option (Handle S)
  | .Sensor s => some s
  | _ => none

/-- `WorldObject::unwrap_rigid_body`: a clone of the inner handle when
the tag is `RigidBody`, a panic (`none`) otherwise. -/
def WorldObject.unwrap_rigid_body : WorldObject RB S → Option (Handle RB)
  | .RigidBody rb => some rb.clone
  | _ => none

/-- `WorldObject::uid`: dispatches on the tag to the matching uid
function. -/
def WorldObject.uid : WorldObject RB S → Nat
  | .RigidBody rb => WorldObject.rigid_body_uid rb
  | .Sensor s => WorldObject.sensor_uid s

/-- `WorldObject::borrow`: `read().unwrap()` on the wrapped handle,
wrapped in the matching `WorldObjectBorrowed` variant; panics (`none`)
exactly when the lock is poisoned. -/
def WorldObject.borrow : WorldObject RB S → Option (WorldObjectBorrowed RB S)
  | .RigidBody rb => (rb.cell.read.unwrap).map WorldObjectBorrowed.RigidBody
  | .Sensor s => (s.cell.read.unwrap).map WorldObjectBorrowed.Sensor

/-- `WorldObject::borrow_sensor`: `read().unwrap()` when the tag is
`Sensor`, a panic (`none`) otherwise. -/
def WorldObject.borrow_sensor : WorldObject RB S → Option S
  | .Sensor s => s.cell.read.unwrap
  | _ => none

/-- `WorldObject::borrow_rigid_body`: `read().unwrap()` when the tag is
`RigidBody`, a panic (`none`) otherwise. -/
def WorldObject.borrow_rigid_body : WorldObject RB S → Option RB
  | .RigidBody rb => rb.cell.read.unwrap
  | _ => none

/-- `WorldObject::borrow_mut`: `write().unwrap()` on the wrapped handle,
wrapped in the matching `WorldObjectBorrowedMut` variant. -/
def WorldObject.borrow_mut : WorldObject RB S → Option (WorldObjectBorrowedMut RB S)
  | .RigidBody rb => (rb.cell.write.unwrap).map WorldObjectBorrowedMut.RigidBody
  | .Sensor s => (s.cell.write.unwrap).map WorldObjectBorrowedMut.Sensor

/-- `WorldObject::borrow_mut_sensor`: `write().unwrap()` when the tag is
`Sensor`, a panic (`none`) otherwise. -/
def WorldObject.borrow_mut_sensor : WorldObject RB S → Option S
  | .Sensor s => s.cell.write.unwrap
  | _ => none

/-- `WorldObject::borrow_mut_rigid_body`: `write().unwrap()` when the
tag is `RigidBody`, a panic (`none`) otherwise. -/
def WorldObject.borrow_mut_rigid_body : WorldObject RB S → Option RB
  | .RigidBody rb => rb.cell.write.unwrap
  | _ => none

/-- The derived `Clone` of `WorldObject`: clones the inner handle under
the same tag. -/
def WorldObject.clone : WorldObject RB S → WorldObject RB S
  | .RigidBody rb => .RigidBody rb.clone
  | .Sensor s => .Sensor s.clone

/-- Storage address of the wrapped entity cell (the quantity both uid
functions read); two world objects refer to the same underlying entity
instance exactly when these agree. -/
def WorldObject.storage_addr : WorldObject RB S → Nat
  | .RigidBody rb => rb.addr
  | .Sensor s => s.addr

/-- Poisoned flag of the wrapped handle's lock. -/
def WorldObject.lock_poisoned : WorldObject RB S → Bool
  | .RigidBody rb => rb.cell.poisoned
  | .Sensor s => s.cell.poisoned

/-- `ncollide::query::Contact<P>` (external): world-space points, the
normal and the penetration depth; `derive(Clone)` copies the value. -/
structure Contact (P V N : Type) where
  world1 : P
  world2 : P
  normal : V
  depth : N
deriving DecidableEq

/-- `Clone` of `Contact` (derived in ncollide): a value copy. -/
def Contact.clone (c : Contact P V N) : Contact P V N := c

/-- `WorldObjectBorrowed::is_rigid_body` (from the getter macro shared
by both view types; the `position`/`shape`/`margin` getters dispatch
into the opaque external entity types and carry no structure of their
own here). -/
def WorldObjectBorrowed.is_rigid_body : WorldObjectBorrowed RB S → Bool
  | .RigidBody _ => true
  | _ => false

/-- `WorldObjectBorrowed::is_sensor`. -/
def WorldObjectBorrowed.is_sensor : WorldObjectBorrowed RB S → Bool
  | .Sensor _ => true
  | _ => false

/-- `WorldObjectBorrowedMut::is_rigid_body`. -/
def WorldObjectBorrowedMut.is_rigid_body : WorldObjectBorrowedMut RB S → Bool
  | .RigidBody _ => true
  | _ => false

/-- `WorldObjectBorrowedMut::is_sensor`. -/
def WorldObjectBorrowedMut.is_sensor : WorldObjectBorrowedMut RB S → Bool
  | .Sensor _ => true
  | _ => false

/-- The `Constraint<N>` enum: a contact between two rigid-body handles,
a ball-in-socket joint handle, or a fixed joint handle.  `BIS` and `F`
are the external `BallInSocket<N>` and `Fixed<N>` joint types. -/
inductive Constraint (RB BIS F P V N : Type) where
  | RBRB : Handle RB → Handle RB → Contact P V N → Constraint RB BIS F P V N
  | BallInSocket : Handle BIS → Constraint RB BIS F P V N
  | Fixed : Handle F → Constraint RB BIS F P V N
deriving DecidableEq

/-- The manual `impl Clone for Constraint`: clones the handles (and, for
`RBRB`, the contact value) under the same variant. -/
def Constraint.clone : Constraint RB BIS F P V N → Constraint RB BIS F P V N
  | .RBRB a b c => .RBRB a.clone b.clone c.clone
  | .BallInSocket bis => .BallInSocket bis.clone
  | .Fixed f => .Fixed f.clone

/-- C2: for every `WorldObject`, `is_rigid_body` and `is_sensor` are
mutually exclusive and exhaustive (exactly one is true), and the true
one matches the constructor used. -/
theorem C2_tag_content_agreement (RB S : Type) :
    (∀ w : WorldObject RB S, w.is_rigid_body = !w.is_sensor)
    ∧ (∀ rb : Handle RB, (WorldObject.RigidBody rb : WorldObject RB S).is_rigid_body = true
        ∧ (WorldObject.RigidBody rb : WorldObject RB S).is_sensor = false)
    ∧ (∀ s : Handle S, (WorldObject.Sensor s : WorldObject RB S).is_sensor = true
        ∧ (WorldObject.Sensor s : WorldObject RB S).is_rigid_body = false) := by
  refine ⟨fun w => ?_, fun rb => ⟨rfl, rfl⟩, fun s => ⟨rfl, rfl⟩⟩
  cases w <;> rfl

/-- C4: unwrapping a freshly wrapped rigid-body handle yields a handle
with the same `rigid_body_uid`; symmetrically for sensors with
`sensor_uid`. -/
theorem C4_unwrap_round_trip (RB S : Type) :
    (∀ rb : Handle RB, ∃ rb2 : Handle RB,
        (WorldObject.RigidBody rb : WorldObject RB S).unwrap_rigid_body = some rb2
        ∧ WorldObject.rigid_body_uid rb2 = WorldObject.rigid_body_uid rb)
    ∧ (∀ s : Handle S, ∃ s2 : Handle S,
        (WorldObject.Sensor s : WorldObject RB S).unwrap_sensor = some s2
        ∧ WorldObject.sensor_uid s2 = WorldObject.sensor_uid s) := by
  exact ⟨fun rb => ⟨rb.clone, rfl, rfl⟩, fun s => ⟨s, rfl, rfl⟩⟩

/-- C5: the uid functions are pure, total functions of the handle's
storage location alone: they are untouched by any change to the cell's
contents (so two calls, even with a mutation of the entity in between,
return the same value), they are `Nat`-valued total functions (never a
panic value), and `WorldObject.uid` coincides with the storage address
for every object. -/
theorem C5_uid_pure_total (RB S : Type) :
    (∀ (a : Nat) (c1 c2 : RwLock RB),
        WorldObject.rigid_body_uid ⟨a, c1⟩ = WorldObject.rigid_body_uid ⟨a, c2⟩)
    ∧ (∀ (a : Nat) (d1 d2 : RwLock S),
        WorldObject.sensor_uid ⟨a, d1⟩ = WorldObject.sensor_uid ⟨a, d2⟩)
    ∧ (∀ (a : Nat) (c1 c2 : RwLock RB),
        (WorldObject.RigidBody ⟨a, c1⟩ : WorldObject RB S).uid
          = (WorldObject.RigidBody ⟨a, c2⟩ : WorldObject RB S).uid)
    ∧ (∀ (a : Nat) (d1 d2 : RwLock S),
        (WorldObject.Sensor ⟨a, d1⟩ : WorldObject RB S).uid
          = (WorldObject.Sensor ⟨a, d2⟩ : WorldObject RB S).uid)
    ∧ (∀ w : WorldObject RB S, w.uid = w.storage_addr) := by
  refine ⟨fun a c1 c2 => rfl, fun a d1 d2 => rfl, fun a c1 c2 => rfl,
    fun a d1 d2 => rfl, fun w => ?_⟩
  cases w <;> rfl

/-- C6: two simultaneously live, distinct entities occupy distinct
storage cells, so their uids differ (reuse of an address after the
entity is freed is outside this statement, which only relates two
objects live at once). -/
theorem C6_uid_distinct (RB S : Type) (w1 w2 : WorldObject RB S)
    (h : w1.storage_addr ≠ w2.storage_addr) : w1.uid ≠ w2.uid := by
  cases w1 <;> cases w2 <;> exact h

/-- C6 witness: a rigid body stored at address 0 and a sensor stored at
address 1 have different uids. -/
theorem C6_uid_distinct_witness :
    (WorldObject.RigidBody ⟨0, ⟨false, ()⟩⟩ : WorldObject Unit Unit).uid
      ≠ (WorldObject.Sensor ⟨1, ⟨false, ()⟩⟩ : WorldObject Unit Unit).uid :=
  C6_uid_distinct Unit Unit _ _ (by decide)

/-- C9: the derived clone of a `WorldObject` duplicates the handle but
not the entity: the clone has the same uid, the same tag, and wraps the
very same storage cell (same underlying entity instance). -/
theorem C9_world_object_clone (RB S : Type) :
    ∀ w : WorldObject RB S,
      w.clone.uid = w.uid
      ∧ w.clone.is_rigid_body = w.is_rigid_body
      ∧ w.clone.is_sensor = w.is_sensor
      ∧ w.clone.storage_addr = w.storage_addr
      ∧ w.clone = w := by
  intro w
  cases w <;> exact ⟨rfl, rfl, rfl, rfl, rfl⟩

/-- C10: the view returned by `borrow` (and by `borrow_mut`) has the
same kind as the object it was borrowed from: its `is_rigid_body` and
`is_sensor` agree with the wrapper's. -/
theorem C10_borrow_preserves_kind (RB S : Type) (w : WorldObject RB S) :
    (∀ v : WorldObjectBorrowed RB S, w.borrow = some v →
        v.is_rigid_body = w.is_rigid_body ∧ v.is_sensor = w.is_sensor)
    ∧ (∀ v : WorldObjectBorrowedMut RB S, w.borrow_mut = some v →
        v.is_rigid_body = w.is_rigid_body ∧ v.is_sensor = w.is_sensor) := by
  constructor
  · intro v hv
    cases w with
    | RigidBody rb =>
        rcases hw : rb.cell.read.unwrap with _ | g
        · simp [WorldObject.borrow, hw] at hv
        · simp [WorldObject.borrow, hw] at hv
          subst hv
          exact ⟨rfl, rfl⟩
    | Sensor s =>
        rcases hw : s.cell.read.unwrap with _ | g
        · simp [WorldObject.borrow, hw] at hv
        · simp [WorldObject.borrow, hw] at hv
          subst hv
          exact ⟨rfl, rfl⟩
  · intro v hv
    cases w with
    | RigidBody rb =>
        rcases hw : rb.cell.write.unwrap with _ | g
        · simp [WorldObject.borrow_mut, hw] at hv
        · simp [WorldObject.borrow_mut, hw] at hv
          subst hv
          exact ⟨rfl, rfl⟩
    | Sensor s =>
        rcases hw : s.cell.write.unwrap with _ | g
        · simp [WorldObject.borrow_mut, hw] at hv
        · simp [WorldObject.borrow_mut, hw] at hv
          subst hv
          exact ⟨rfl, rfl⟩

/-- C10 witness: borrowing a concrete unpoisoned rigid-body object
yields a read view and a write view whose kind flags agree with the
wrapper's. -/
theorem C10_borrow_preserves_kind_witness :
    ((WorldObject.RigidBody ⟨0, ⟨false, ()⟩⟩ : WorldObject Unit Unit).borrow
        = some (WorldObjectBorrowed.RigidBody ())
      ∧ (WorldObjectBorrowed.RigidBody () : WorldObjectBorrowed Unit Unit).is_rigid_body
          = (WorldObject.RigidBody ⟨0, ⟨false, ()⟩⟩ : WorldObject Unit Unit).is_rigid_body
      ∧ (WorldObjectBorrowed.RigidBody () : WorldObjectBorrowed Unit Unit).is_sensor
          = (WorldObject.RigidBody ⟨0, ⟨false, ()⟩⟩ : WorldObject Unit Unit).is_sensor)
    ∧ ((WorldObject.RigidBody ⟨0, ⟨false, ()⟩⟩ : WorldObject Unit Unit).borrow_mut
        = some (WorldObjectBorrowedMut.RigidBody ())
      ∧ (WorldObjectBorrowedMut.RigidBody () : WorldObjectBorrowedMut Unit Unit).is_rigid_body
          = (WorldObject.RigidBody ⟨0, ⟨false, ()⟩⟩ : WorldObject Unit Unit).is_rigid_body
      ∧ (WorldObjectBorrowedMut.RigidBody () : WorldObjectBorrowedMut Unit Unit).is_sensor
          = (WorldObject.RigidBody ⟨0, ⟨false, ()⟩⟩ : WorldObject Unit Unit).is_sensor) :=
  ⟨⟨by decide,
    (C10_borrow_preserves_kind Unit Unit (WorldObject.RigidBody ⟨0, ⟨false, ()⟩⟩)).1
      (WorldObjectBorrowed.RigidBody ()) (by decide)⟩,
   ⟨by decide,
    (C10_borrow_preserves_kind Unit Unit (WorldObject.RigidBody ⟨0, ⟨false, ()⟩⟩)).2
      (WorldObjectBorrowedMut.RigidBody ()) (by decide)⟩⟩

/-- Helper: `unwrap_sensor` panics exactly on a tag mismatch. -/
theorem unwrap_sensor_none_iff (w : WorldObject RB S) :
    w.unwrap_sensor = none ↔ w.is_sensor = false := by
  cases w <;> simp [WorldObject.unwrap_sensor, WorldObject.is_sensor]

/-- Helper: `unwrap_rigid_body` panics exactly on a tag mismatch. -/
theorem unwrap_rigid_body_none_iff (w : WorldObject RB S) :
    w.unwrap_rigid_body = none ↔ w.is_rigid_body = false := by
  cases w <;> simp [WorldObject.unwrap_rigid_body, WorldObject.is_rigid_body]

/-- Helper: `borrow_sensor` panics exactly on a tag mismatch or a
poisoned lock. -/
theorem borrow_sensor_none_iff (w : WorldObject RB S) :
    w.borrow_sensor = none ↔ (w.is_sensor = false ∨ w.lock_poisoned = true) := by
  cases w with
  | RigidBody rb =>
      simp [WorldObject.borrow_sensor, WorldObject.is_sensor]
  | Sensor s =>
      rcases s with ⟨a, p, v⟩
      cases p <;>
        simp [WorldObject.borrow_sensor, WorldObject.is_sensor,
          WorldObject.lock_poisoned, RwLock.read, LockResult.unwrap]

/-- Helper: `borrow_rigid_body` panics exactly on a tag mismatch or a
poisoned lock. -/
theorem borrow_rigid_body_none_iff (w : WorldObject RB S) :
    w.borrow_rigid_body = none ↔ (w.is_rigid_body = false ∨ w.lock_poisoned = true) := by
  cases w with
  | Sensor s =>
      simp [WorldObject.borrow_rigid_body, WorldObject.is_rigid_body]
  | RigidBody rb =>
      rcases rb with ⟨a, p, v⟩
      cases p <;>
        simp [WorldObject.borrow_rigid_body, WorldObject.is_rigid_body,
          WorldObject.lock_poisoned, RwLock.read, LockResult.unwrap]

/-- Helper: `borrow_mut_sensor` panics exactly on a tag mismatch or a
poisoned lock. -/
theorem borrow_mut_sensor_none_iff (w : WorldObject RB S) :
    w.borrow_mut_sensor = none ↔ (w.is_sensor = false ∨ w.lock_poisoned = true) := by
  cases w with
  | RigidBody rb =>
      simp [WorldObject.borrow_mut_sensor, WorldObject.is_sensor]
  | Sensor s =>
      rcases s with ⟨a, p, v⟩
      cases p <;>
        simp [WorldObject.borrow_mut_sensor, WorldObject.is_sensor,
          WorldObject.lock_poisoned, RwLock.write, LockResult.unwrap]

/-- Helper: `borrow_mut_rigid_body` panics exactly on a tag mismatch or
a poisoned lock. -/
theorem borrow_mut_rigid_body_none_iff (w : WorldObject RB S) :
    w.borrow_mut_rigid_body = none ↔ (w.is_rigid_body = false ∨ w.lock_poisoned = true) := by
  cases w with
  | Sensor s =>
      simp [WorldObject.borrow_mut_rigid_body, WorldObject.is_rigid_body]
  | RigidBody rb =>
      rcases rb with ⟨a, p, v⟩
      cases p <;>
        simp [WorldObject.borrow_mut_rigid_body, WorldObject.is_rigid_body,
          WorldObject.lock_poisoned, RwLock.write, LockResult.unwrap]

/-- C1 counterexample: a sensor-tagged object whose lock is poisoned.
Its tag matches the requested kind, yet `borrow_sensor` fails fatally
(the `unwrap` of the poisoned lock result panics), so the kind-specific
borrow operations do not fail *only* on a tag mismatch. -/
theorem C1_kind_mismatch_counterexample :
    (WorldObject.Sensor ⟨0, ⟨true, ()⟩⟩ : WorldObject Unit Unit).is_sensor = true
    ∧ (WorldObject.Sensor ⟨0, ⟨true, ()⟩⟩ : WorldObject Unit Unit).borrow_sensor = none := by
  decide

/-- C1 (amended): `unwrap_sensor` / `unwrap_rigid_body` fail fatally
exactly on a tag mismatch and return the inner handle otherwise; the
kind-specific borrow operations fail fatally exactly on a tag mismatch
or a poisoned lock, and return the borrowed guard when the tag matches
and the lock is not poisoned. -/
theorem C1_kind_specific_ops (RB S : Type) :
    (∀ w : WorldObject RB S, w.unwrap_sensor = none ↔ w.is_sensor = false)
    ∧ (∀ w : WorldObject RB S, w.unwrap_rigid_body = none ↔ w.is_rigid_body = false)
    ∧ (∀ s : Handle S, (WorldObject.Sensor s : WorldObject RB S).unwrap_sensor = some s)
    ∧ (∀ rb : Handle RB,
        (WorldObject.RigidBody rb : WorldObject RB S).unwrap_rigid_body = some rb.clone)
    ∧ (∀ w : WorldObject RB S,
        w.borrow_sensor = none ↔ (w.is_sensor = false ∨ w.lock_poisoned = true))
    ∧ (∀ w : WorldObject RB S,
        w.borrow_rigid_body = none ↔ (w.is_rigid_body = false ∨ w.lock_poisoned = true))
    ∧ (∀ w : WorldObject RB S,
        w.borrow_mut_sensor = none ↔ (w.is_sensor = false ∨ w.lock_poisoned = true))
    ∧ (∀ w : WorldObject RB S,
        w.borrow_mut_rigid_body = none ↔ (w.is_rigid_body = false ∨ w.lock_poisoned = true))
    ∧ (∀ (a : Nat) (v : S),
        (WorldObject.Sensor ⟨a, ⟨false, v⟩⟩ : WorldObject RB S).borrow_sensor = some v)
    ∧ (∀ (a : Nat) (v : RB),
        (WorldObject.RigidBody ⟨a, ⟨false, v⟩⟩ : WorldObject RB S).borrow_rigid_body = some v)
    ∧ (∀ (a : Nat) (v : S),
        (WorldObject.Sensor ⟨a, ⟨false, v⟩⟩ : WorldObject RB S).borrow_mut_sensor = some v)
    ∧ (∀ (a : Nat) (v : RB),
        (WorldObject.RigidBody ⟨a, ⟨false, v⟩⟩ : WorldObject RB S).borrow_mut_rigid_body
          = some v) := by
  exact ⟨fun w => unwrap_sensor_none_iff w, fun w => unwrap_rigid_body_none_iff w,
    fun s => rfl, fun rb => rfl,
    fun w => borrow_sensor_none_iff w, fun w => borrow_rigid_body_none_iff w,
    fun w => borrow_mut_sensor_none_iff w, fun w => borrow_mut_rigid_body_none_iff w,
    fun a v => rfl, fun a v => rfl, fun a v => rfl, fun a v => rfl⟩

/-- C3 counterexample: `borrow` on a rigid-body object whose lock is
poisoned fails fatally (the `unwrap` of the lock result panics), so
`borrow` is not failure-free and a fatal failure can arise from a cause
other than a tag mismatch. -/
theorem C3_no_other_failures_counterexample :
    (WorldObject.RigidBody ⟨0, ⟨true, ()⟩⟩ : WorldObject Unit Unit).borrow = none := by
  decide

/-- C3 (amended): every operation either succeeds or fails fatally (no
recoverable error value is surfaced: every fallible operation returns
the panic marker, never an error payload), and a fatal failure arises
only from a tag mismatch or from acquiring a poisoned lock; `borrow`
and `borrow_mut`, which take no kind argument, fail exactly when the
wrapped lock is poisoned and succeed otherwise. -/
theorem C3_failure_modes (RB S : Type) :
    (∀ w : WorldObject RB S, w.borrow = none ↔ w.lock_poisoned = true)
    ∧ (∀ w : WorldObject RB S, w.borrow_mut = none ↔ w.lock_poisoned = true)
    ∧ (∀ (a : Nat) (v : RB),
        (WorldObject.RigidBody ⟨a, ⟨false, v⟩⟩ : WorldObject RB S).borrow
          = some (WorldObjectBorrowed.RigidBody v))
    ∧ (∀ (a : Nat) (v : S),
        (WorldObject.Sensor ⟨a, ⟨false, v⟩⟩ : WorldObject RB S).borrow
          = some (WorldObjectBorrowed.Sensor v))
    ∧ (∀ (a : Nat) (v : RB),
        (WorldObject.RigidBody ⟨a, ⟨false, v⟩⟩ : WorldObject RB S).borrow_mut
          = some (WorldObjectBorrowedMut.RigidBody v))
    ∧ (∀ (a : Nat) (v : S),
        (WorldObject.Sensor ⟨a, ⟨false, v⟩⟩ : WorldObject RB S).borrow_mut
          = some (WorldObjectBorrowedMut.Sensor v))
    ∧ (∀ w : WorldObject RB S, w.unwrap_sensor = none ↔ w.is_sensor = false)
    ∧ (∀ w : WorldObject RB S, w.unwrap_rigid_body = none ↔ w.is_rigid_body = false)
    ∧ (∀ w : WorldObject RB S,
        w.borrow_sensor = none ↔ (w.is_sensor = false ∨ w.lock_poisoned = true))
    ∧ (∀ w : WorldObject RB S,
        w.borrow_rigid_body = none ↔ (w.is_rigid_body = false ∨ w.lock_poisoned = true))
    ∧ (∀ w : WorldObject RB S,
        w.borrow_mut_sensor = none ↔ (w.is_sensor = false ∨ w.lock_poisoned = true))
    ∧ (∀ w : WorldObject RB S,
        w.borrow_mut_rigid_body = none ↔ (w.is_rigid_body = false ∨ w.lock_poisoned = true)) := by
  refine ⟨fun w => ?_, fun w => ?_, fun a v => rfl, fun a v => rfl,
    fun a v => rfl, fun a v => rfl, fun w => ?_, fun w => ?_,
    fun w => ?_, fun w => ?_, fun w => ?_, fun w => ?_⟩
  · cases w with
    | RigidBody rb =>
        rcases rb with ⟨a, p, v⟩
        cases p <;>
          simp [WorldObject.borrow, WorldObject.lock_poisoned,
            RwLock.read, LockResult.unwrap]
    | Sensor s =>
        rcases s with ⟨a, p, v⟩
        cases p <;>
          simp [WorldObject.borrow, WorldObject.lock_poisoned,
            RwLock.read, LockResult.unwrap]
  · cases w with
    | RigidBody rb =>
        rcases rb with ⟨a, p, v⟩
        cases p <;>
          simp [WorldObject.borrow_mut, WorldObject.lock_poisoned,
            RwLock.write, LockResult.unwrap]
    | Sensor s =>
        rcases s with ⟨a, p, v⟩
        cases p <;>
          simp [WorldObject.borrow_mut, WorldObject.lock_poisoned,
            RwLock.write, LockResult.unwrap]
  · exact unwrap_sensor_none_iff w
  · exact unwrap_rigid_body_none_iff w
  · exact borrow_sensor_none_iff w
  · exact borrow_rigid_body_none_iff w
  · exact borrow_mut_sensor_none_iff w
  · exact borrow_mut_rigid_body_none_iff w

/-- C7: constructing `Constraint::RBRB(A, B, C)` from two distinct
rigid-body handles and a contact value, then pattern-matching it, gives
back a first handle with the same uid as `A`, a second with the same
uid as `B`, and a contact structurally equal to `C`. -/
theorem C7_contact_round_trip (RB BIS F P V N : Type)
    (a b : Handle RB) (c : Contact P V N) (_hab : a.addr ≠ b.addr) :
    ∃ (a2 b2 : Handle RB) (c2 : Contact P V N),
      (Constraint.RBRB a b c : Constraint RB BIS F P V N) = Constraint.RBRB a2 b2 c2
      ∧ WorldObject.rigid_body_uid a2 = WorldObject.rigid_body_uid a
      ∧ WorldObject.rigid_body_uid b2 = WorldObject.rigid_body_uid b
      ∧ c2 = c :=
  ⟨a, b, c, rfl, rfl, rfl, rfl⟩

/-- C7 witness: two rigid bodies at addresses 0 and 1 and the contact
with normal (0, 1, 0) and separation -1/100. -/
theorem C7_contact_round_trip_witness :
    Handle.addr (⟨0, ⟨false, ()⟩⟩ : Handle Unit) ≠ Handle.addr (⟨1, ⟨false, ()⟩⟩ : Handle Unit)
    ∧ ∃ (a2 b2 : Handle Unit) (c2 : Contact (Int × Int × Int) (Int × Int × Int) Rat),
        (Constraint.RBRB ⟨0, ⟨false, ()⟩⟩ ⟨1, ⟨false, ()⟩⟩
            ⟨(0, 0, 0), (0, 0, 0), (0, 1, 0), -1 / 100⟩
          : Constraint Unit Unit Unit (Int × Int × Int) (Int × Int × Int) Rat)
          = Constraint.RBRB a2 b2 c2
        ∧ WorldObject.rigid_body_uid a2
            = WorldObject.rigid_body_uid (⟨0, ⟨false, ()⟩⟩ : Handle Unit)
        ∧ WorldObject.rigid_body_uid b2
            = WorldObject.rigid_body_uid (⟨1, ⟨false, ()⟩⟩ : Handle Unit)
        ∧ c2 = ⟨(0, 0, 0), (0, 0, 0), (0, 1, 0), -1 / 100⟩ :=
  ⟨by decide,
   C7_contact_round_trip Unit Unit Unit _ _ _ ⟨0, ⟨false, ()⟩⟩ ⟨1, ⟨false, ()⟩⟩
     ⟨(0, 0, 0), (0, 0, 0), (0, 1, 0), -1 / 100⟩ (by decide)⟩

/-- C8: cloning a constraint preserves the variant tag and duplicates
only the references: the cloned handles point at the same storage cells
(same addresses, hence same underlying bodies or joint), the contact
geometry is copied value-equal, and the clone is the same reference
structure as the original (nothing underlying is deep-copied or
modified). -/
theorem C8_constraint_clone (RB BIS F P V N : Type) :
    (∀ (a b : Handle RB) (c : Contact P V N),
      ∃ (a2 b2 : Handle RB) (c2 : Contact P V N),
        (Constraint.RBRB a b c : Constraint RB BIS F P V N).clone = Constraint.RBRB a2 b2 c2
        ∧ a2.addr = a.addr ∧ b2.addr = b.addr ∧ c2 = c)
    ∧ (∀ j : Handle BIS, ∃ j2 : Handle BIS,
        (Constraint.BallInSocket j : Constraint RB BIS F P V N).clone
          = Constraint.BallInSocket j2
        ∧ j2.addr = j.addr)
    ∧ (∀ j : Handle F, ∃ j2 : Handle F,
        (Constraint.Fixed j : Constraint RB BIS F P V N).clone = Constraint.Fixed j2
        ∧ j2.addr = j.addr)
    ∧ (∀ k : Constraint RB BIS F P V N, k.clone = k) := by
  refine ⟨fun a b c => ⟨a.clone, b.clone, c.clone, rfl, rfl, rfl, rfl⟩,
    fun j => ⟨j.clone, rfl, rfl⟩, fun j => ⟨j.clone, rfl, rfl⟩, fun k => ?_⟩
  cases k <;> rfl
